import Mathlib

/-!
# weixinmp: retry pipeline, media transfer and message envelopes

A shallow embedding of `weixinmp.go`.

* Every call that leaves the package (`accessToken.extract`, `http.Post`, `http.Get`,
  `ioutil.ReadAll`, `json.Unmarshal`, `os.Create`, `file.Write`, `rw.Write`, `time.Now`) is
  answered by an explicit environment value, one per loop iteration where the call sits in a
  retry loop.
* A Go `error` is the text of its message; a run ends in `Outcome.ok`, `Outcome.error` or
  `Outcome.panic` (a nil dereference).
* `encoding/xml` and `encoding/json` output is kept as a document tree (element and key names as
  the struct tags fix them), before character escaping.
-/

namespace Weixin

/-! ## Constants -/

/-- Constant `retryNum`. -/
def retryNum : Nat := 3

/-- Constant `plainPreUrl`. -/
def plainPreUrl : String := "https://api.weixin.qq.com/cgi-bin/"

/-- Constant `mediaPreUrl`. -/
def mediaPreUrl : String := "http://file.api.weixin.qq.com/cgi-bin/media/"

/-- A Go `[]byte`. -/
abbrev Bytes := List Nat

/-- The bytes of an ASCII text. -/
def bytesOf (s : String) : Bytes := s.toList.map Char.toNat

/-! ## Results of a run -/

/-- How a Go function call ends: it returns a value with a nil error, it returns a non-nil
error (the text of the error), or it panics. -/
inductive Outcome (α : Type) where
  | ok (v : α)
  | error (err : String)
  | panic
  deriving DecidableEq, Repr

/-- What one iteration of a retry loop does: `continue` with the next index, or leave the
function (by `return` or by a panic). -/
inductive Step (α : Type) where
  | next
  | done (o : Outcome α)
  deriving DecidableEq, Repr

/-- A finished run of a retry loop: the outcome, the number of loop iterations that were
started, and the state the iterations threaded. -/
structure Run (α σ : Type) where
  result : Outcome α
  attempts : Nat
  state : σ
  deriving DecidableEq, Repr

/-- The statement `for i := 0; i < retryNum; i++ { body }; return after`, run over the
indices the loop visits. `body i` either continues or leaves the function. -/
def forRetry {α σ : Type} (body : Nat → σ → Step α × σ) (after : Outcome α) :
    List Nat → σ → Run α σ
  | [], s => ⟨after, 0, s⟩
  | i :: rest, s =>
    match body i s with
    | (.next, s1) =>
      let r := forRetry body after rest s1
      ⟨r.result, r.attempts + 1, r.state⟩
    | (.done o, s1) => ⟨o, 1, s1⟩

/-! ## The environment of one attempt -/

/-- An `*http.Response` as the loops read it: the `Content-Type` header and what
`ioutil.ReadAll(resp.Body)` returns. -/
structure Response where
  contentType : String
  body : Except String Bytes

/-- The pair `(resp, err)` returned by `http.Post` / `http.Get`; `resp = none` is a nil
response. -/
structure HttpResult where
  resp : Option Response
  err : Option String

/-- The local struct `rtn` of `post` and `DownloadMediaFile`. -/
structure errRtn where
  ErrCode : Int := 0
  ErrMsg : String := ""
  deriving DecidableEq, Repr

/-- The local struct `rtn` of `UploadMediaFile` (`Typ` is its field `Type`). -/
structure uploadRtn where
  Typ : String := ""
  MediaId : String := ""
  CreatedAt : Int := 0
  ErrCode : Int := 0
  ErrMsg : String := ""
  deriving DecidableEq, Repr

/-- What the outside world answers during loop iteration `i`:
`token` is the result of `this.accessToken.extract()`, `http` the result of the HTTP call,
`decoded` the result of `json.Unmarshal(raw, &rtn)` on the body read. -/
structure Attempt (ρ : Type) where
  token : Except String String
  http : HttpResult
  decoded : Except String ρ

/-- The text `fmt.Sprintf("%d %s", code, msg)`. -/
def fmtErr (code : Int) (msg : String) : String := toString code ++ " " ++ msg

/-! ## JSON and XML documents -/

/-- A JSON document. -/
inductive Json where
  | null
  | str (s : String)
  | num (n : Int)
  | arr (items : List Json)
  | obj (fields : List (String × Json))

/-- An XML document: character data (a string or a decimal integer) or an element with
children. -/
inductive Xml where
  | text (s : String)
  | int (n : Int)
  | elem (name : String) (children : List Xml)

/-- The keys of a JSON object, in order. -/
def Json.keys : Json → List String
  | .obj fields => fields.map Prod.fst
  | _ => []

/-- The value stored under a key of a JSON object. -/
def Json.get (k : String) : Json → Option Json
  | .obj fields => (fields.find? (fun kv => kv.1 == k)).map Prod.snd
  | _ => none

/-- The names of the child elements of an XML element, in order. -/
def Xml.childNames : Xml → List String
  | .elem _ children =>
    children.filterMap (fun c => match c with
      | .elem n _ => some n
      | _ => none)
  | _ => []

/-! ## `post` -/

/-- An HTTP POST issued by `post`: the URL and the JSON body. -/
structure HttpReq where
  url : String
  body : Json

/-- The body of the `for` loop of `post`, at index `i`. The state is the list of requests
issued so far (oldest first). `defer resp.Body.Close()` dereferences `resp`: a nil response
panics there, before `err` is looked at. -/
def postAttempt (action : String) (data : Json) (env : Nat → Attempt errRtn)
    (i : Nat) (sent : List HttpReq) : Step Bytes × List HttpReq :=
  let url := plainPreUrl ++ action ++ "?access_token="
  match (env i).token with
  | .error err => if i < retryNum then (.next, sent) else (.done (.error err), sent)
  | .ok token =>
    let sent1 := sent ++ [⟨url ++ token, data⟩]
    match (env i).http.resp with
    | none => (.done .panic, sent1)
    | some resp =>
      match (env i).http.err with
      | some err => if i < retryNum then (.next, sent1) else (.done (.error err), sent1)
      | none =>
        match resp.body with
        | .error err => if i < retryNum then (.next, sent1) else (.done (.error err), sent1)
        | .ok raw =>
          match (env i).decoded with
          | .error err =>
            if i < retryNum then (.next, sent1) else (.done (.error err), sent1)
          | .ok rtn =>
            if rtn.ErrCode ≠ 0 then
              if i < retryNum then (.next, sent1)
              else (.done (.error (fmtErr rtn.ErrCode rtn.ErrMsg)), sent1)
            else (.done (.ok raw), sent1)

/-- Method `Weixinmp.post`. The state of the run is the list of requests issued. -/
def post (action : String) (data : Json) (env : Nat → Attempt errRtn) :
    Run Bytes (List HttpReq) :=
  forRetry (postAttempt action data env)
    (.error ("send post request failed: " ++ action)) (List.range retryNum) []

/-! ## `DownloadMediaFile` -/

/-- What the local file system answers: the error of `os.Create(filePath)`, if any, and the
failure of `file.Write(raw)`, if any, as the number of bytes that were written before the
error together with the error. -/
structure Disk where
  createErr : Option String
  writeErr : Option (Nat × String)

/-- The body of the `for` loop of `DownloadMediaFile`, at index `i`. The state is the content
of the file at `filePath` (`none`: the file does not exist). `os.Create` creates or truncates
the file. -/
def downloadAttempt (env : Nat → Attempt errRtn) (disk : Disk)
    (i : Nat) (file : Option Bytes) : Step Unit × Option Bytes :=
  match (env i).token with
  | .error err => if i < retryNum then (.next, file) else (.done (.error err), file)
  | .ok _ =>
    match (env i).http.resp with
    | none => (.done .panic, file)
    | some resp =>
      match (env i).http.err with
      | some err => if i < retryNum then (.next, file) else (.done (.error err), file)
      | none =>
        if resp.contentType = "text/plain" then
          if i < retryNum then (.next, file)
          else
            match resp.body with
            | .error err =>
              if i < retryNum then (.next, file) else (.done (.error err), file)
            | .ok _ =>
              match (env i).decoded with
              | .error err =>
                if i < retryNum then (.next, file) else (.done (.error err), file)
              | .ok rtn => (.done (.error (fmtErr rtn.ErrCode rtn.ErrMsg)), file)
        else
          match resp.body with
          | .error err => if i < retryNum then (.next, file) else (.done (.error err), file)
          | .ok raw =>
            match disk.createErr with
            | some err => (.done (.error err), file)
            | none =>
              match disk.writeErr with
              | some (n, err) => (.done (.error err), some (raw.take n))
              | none => (.done (.ok ()), some raw)

/-- Method `Weixinmp.DownloadMediaFile`; `file` is the content of the file at `filePath`
before the call. The state of the run is the content of that file after the call. The URL
built from `mediaId` and the token goes out to the server, whose answers are `env`. -/
def DownloadMediaFile (env : Nat → Attempt errRtn) (disk : Disk) (file : Option Bytes) :
    Run Unit (Option Bytes) :=
  forRetry (downloadAttempt env disk) (.error "download media file failed")
    (List.range retryNum) file

/-! ## `UploadMediaFile` -/

/-- What the steps before the retry loop of `UploadMediaFile` return: the error of
`os.Open(filePath)`, of `bw.CreateFormFile` and of `io.Copy`, if any. -/
structure UploadLocal where
  openErr : Option String
  formErr : Option String
  copyErr : Option String

/-- The body of the `for` loop of `UploadMediaFile`, at index `i`. -/
def uploadAttempt (env : Nat → Attempt uploadRtn) (i : Nat) (s : Unit) : Step String × Unit :=
  match (env i).token with
  | .error err => if i < retryNum then (.next, s) else (.done (.error err), s)
  | .ok _ =>
    match (env i).http.resp with
    | none => (.done .panic, s)
    | some resp =>
      match (env i).http.err with
      | some err => if i < retryNum then (.next, s) else (.done (.error err), s)
      | none =>
        match resp.body with
        | .error err => if i < retryNum then (.next, s) else (.done (.error err), s)
        | .ok _ =>
          match (env i).decoded with
          | .error _ => if i < retryNum then (.next, s) else (.done (.ok ""), s)
          | .ok rtn =>
            if rtn.ErrCode ≠ 0 ∧ rtn.ErrMsg ≠ "" then
              if i < retryNum then (.next, s)
              else (.done (.error (fmtErr rtn.ErrCode rtn.ErrMsg)), s)
            else (.done (.ok rtn.MediaId), s)

/-- Method `Weixinmp.UploadMediaFile`. The multipart body and the URL built from `mediaType`
and the token go out to the server, whose answers are `env`. -/
def UploadMediaFile (loc : UploadLocal) (env : Nat → Attempt uploadRtn) : Run String Unit :=
  match loc.openErr with
  | some err => ⟨.error err, 0, ()⟩
  | none =>
    match loc.formErr with
    | some err => ⟨.error err, 0, ()⟩
    | none =>
      match loc.copyErr with
      | some err => ⟨.error err, 0, ()⟩
      | none =>
        forRetry (uploadAttempt env) (.error "upload media file failed")
          (List.range retryNum) ()

/-! ## Message structs -/

/-- Struct `Video`. -/
structure Video where
  MediaId : String := ""
  Title : String := ""
  Description : String := ""

/-- Struct `Music`. -/
structure Music where
  Title : String := ""
  Description : String := ""
  MediaId : String := ""
  MusicUrl : String := ""
  HQMusicUrl : String := ""
  ThumbMediaId : String := ""

/-- Struct `Article`. -/
structure Article where
  Title : String := ""
  Description : String := ""
  PicUrl : String := ""
  Url : String := ""

/-- The anonymous struct of the field `Text` of `textMsg`. -/
structure TextField where
  Content : String := ""

/-- The anonymous struct of the fields `Image` of `imageMsg` and `Voice` of `voiceMsg`. -/
structure MediaField where
  MediaId : String := ""

/-- The anonymous struct of the field `Articles` of `newsMsg`; `Item` is a pointer to a slice,
`none` when nil. -/
structure ArticlesField where
  Item : Option (List Article) := none

/-- Struct `textMsg`. The field `XMLName` carries no data: its tag names the root element
`xml`. Every field starts at its zero value, as after `var msg textMsg`. -/
structure textMsg where
  ToUserName : String := ""
  FromUserName : String := ""
  CreateTime : Int := 0
  MsgType : String := ""
  Content : String := ""
  Text : TextField := {}

/-- Struct `imageMsg`. -/
structure imageMsg where
  ToUserName : String := ""
  FromUserName : String := ""
  CreateTime : Int := 0
  MsgType : String := ""
  Image : MediaField := {}

/-- Struct `voiceMsg`. -/
structure voiceMsg where
  ToUserName : String := ""
  FromUserName : String := ""
  CreateTime : Int := 0
  MsgType : String := ""
  Voice : MediaField := {}

/-- Struct `videoMsg`; the pointer `Video` is `none` when nil. -/
structure videoMsg where
  ToUserName : String := ""
  FromUserName : String := ""
  CreateTime : Int := 0
  MsgType : String := ""
  Video : Option Video := none

/-- Struct `musicMsg`; the pointer `Music` is `none` when nil. -/
structure musicMsg where
  ToUserName : String := ""
  FromUserName : String := ""
  CreateTime : Int := 0
  MsgType : String := ""
  Music : Option Music := none

/-- Struct `newsMsg`. -/
structure newsMsg where
  ToUserName : String := ""
  FromUserName : String := ""
  CreateTime : Int := 0
  MsgType : String := ""
  ArticleCount : Int := 0
  Articles : ArticlesField := {}

/-- The value behind the `msg interface{}` parameter of `replyMsg` and `sendMsg`: a pointer to
one of the six message structs. -/
inductive Msg where
  | text (m : textMsg)
  | image (m : imageMsg)
  | voice (m : voiceMsg)
  | video (m : videoMsg)
  | music (m : musicMsg)
  | news (m : newsMsg)

/-- The effect of `v.FieldByName("ToUserName").SetString(s)`. -/
def Msg.setToUserName (s : String) : Msg → Msg
  | .text m => .text { m with ToUserName := s }
  | .image m => .image { m with ToUserName := s }
  | .voice m => .voice { m with ToUserName := s }
  | .video m => .video { m with ToUserName := s }
  | .music m => .music { m with ToUserName := s }
  | .news m => .news { m with ToUserName := s }

/-- The effect of `v.FieldByName("FromUserName").SetString(s)`. -/
def Msg.setFromUserName (s : String) : Msg → Msg
  | .text m => .text { m with FromUserName := s }
  | .image m => .image { m with FromUserName := s }
  | .voice m => .voice { m with FromUserName := s }
  | .video m => .video { m with FromUserName := s }
  | .music m => .music { m with FromUserName := s }
  | .news m => .news { m with FromUserName := s }

/-- The effect of `v.FieldByName("CreateTime").SetInt(t)`. -/
def Msg.setCreateTime (t : Int) : Msg → Msg
  | .text m => .text { m with CreateTime := t }
  | .image m => .image { m with CreateTime := t }
  | .voice m => .voice { m with CreateTime := t }
  | .video m => .video { m with CreateTime := t }
  | .music m => .music { m with CreateTime := t }
  | .news m => .news { m with CreateTime := t }

/-- Field `ToUserName` of a message. -/
def Msg.ToUserName : Msg → String
  | .text m => m.ToUserName
  | .image m => m.ToUserName
  | .voice m => m.ToUserName
  | .video m => m.ToUserName
  | .music m => m.ToUserName
  | .news m => m.ToUserName

/-- Field `FromUserName` of a message. -/
def Msg.FromUserName : Msg → String
  | .text m => m.FromUserName
  | .image m => m.FromUserName
  | .voice m => m.FromUserName
  | .video m => m.FromUserName
  | .music m => m.FromUserName
  | .news m => m.FromUserName

/-- Field `CreateTime` of a message. -/
def Msg.CreateTime : Msg → Int
  | .text m => m.CreateTime
  | .image m => m.CreateTime
  | .voice m => m.CreateTime
  | .video m => m.CreateTime
  | .music m => m.CreateTime
  | .news m => m.CreateTime

/-- Field `MsgType` of a message. -/
def Msg.MsgType : Msg → String
  | .text m => m.MsgType
  | .image m => m.MsgType
  | .voice m => m.MsgType
  | .video m => m.MsgType
  | .music m => m.MsgType
  | .news m => m.MsgType

/-- The fields of a message other than `ToUserName`, `FromUserName` and `CreateTime`: the
message with these three put back to their zero values. -/
def Msg.payload : Msg → Msg
  | .text m => .text { m with ToUserName := "", FromUserName := "", CreateTime := 0 }
  | .image m => .image { m with ToUserName := "", FromUserName := "", CreateTime := 0 }
  | .voice m => .voice { m with ToUserName := "", FromUserName := "", CreateTime := 0 }
  | .video m => .video { m with ToUserName := "", FromUserName := "", CreateTime := 0 }
  | .music m => .music { m with ToUserName := "", FromUserName := "", CreateTime := 0 }
  | .news m => .news { m with ToUserName := "", FromUserName := "", CreateTime := 0 }

/-! ## Serialization, as the struct tags fix it -/

/-- An XML element holding a string. -/
def xmlStr (name s : String) : Xml := .elem name [.text s]

/-- The element `encoding/xml` writes for a `Video` value. -/
def Video.toXml (name : String) (v : Video) : Xml :=
  .elem name [xmlStr "MediaId" v.MediaId, xmlStr "Title" v.Title,
    xmlStr "Description" v.Description]

/-- The element `encoding/xml` writes for a `Music` value. -/
def Music.toXml (name : String) (m : Music) : Xml :=
  .elem name [xmlStr "Title" m.Title, xmlStr "Description" m.Description,
    xmlStr "MediaId" m.MediaId, xmlStr "MusicUrl" m.MusicUrl,
    xmlStr "HQMusicUrl" m.HQMusicUrl, xmlStr "ThumbMediaId" m.ThumbMediaId]

/-- The element `encoding/xml` writes for an `Article` value. -/
def Article.toXml (name : String) (a : Article) : Xml :=
  .elem name [xmlStr "Title" a.Title, xmlStr "Description" a.Description,
    xmlStr "PicUrl" a.PicUrl, xmlStr "Url" a.Url]

/-- The four elements every message starts with. -/
def xmlEnvelope (toUser fromUser : String) (t : Int) (ty : String) : List Xml :=
  [xmlStr "ToUserName" toUser, xmlStr "FromUserName" fromUser, .elem "CreateTime" [.int t],
    xmlStr "MsgType" ty]

/-- The result of `xml.Marshal(msg)`. The root element is named by the tag of `XMLName`;
fields follow in declaration order under their Go names; a field tagged `xml:"-"` and a nil
pointer are left out; the slice behind `Item` gives one `item` element per article. No value
of these types makes the encoder fail. -/
def xmlMarshal : Msg → Except String Xml
  | .text m => .ok (.elem "xml"
      (xmlEnvelope m.ToUserName m.FromUserName m.CreateTime m.MsgType ++
        [xmlStr "Content" m.Content]))
  | .image m => .ok (.elem "xml"
      (xmlEnvelope m.ToUserName m.FromUserName m.CreateTime m.MsgType ++
        [.elem "Image" [xmlStr "MediaId" m.Image.MediaId]]))
  | .voice m => .ok (.elem "xml"
      (xmlEnvelope m.ToUserName m.FromUserName m.CreateTime m.MsgType ++
        [.elem "Voice" [xmlStr "MediaId" m.Voice.MediaId]]))
  | .video m => .ok (.elem "xml"
      (xmlEnvelope m.ToUserName m.FromUserName m.CreateTime m.MsgType ++
        (match m.Video with
          | none => []
          | some v => [v.toXml "Video"])))
  | .music m => .ok (.elem "xml"
      (xmlEnvelope m.ToUserName m.FromUserName m.CreateTime m.MsgType ++
        (match m.Music with
          | none => []
          | some v => [v.toXml "Music"])))
  | .news m => .ok (.elem "xml"
      (xmlEnvelope m.ToUserName m.FromUserName m.CreateTime m.MsgType ++
        [.elem "ArticleCount" [.int m.ArticleCount],
          .elem "Articles" (match m.Articles.Item with
            | none => []
            | some items => items.map (Article.toXml "item"))]))

/-- The object `encoding/json` writes for a `Video` value. -/
def Video.toJson (v : Video) : Json :=
  .obj [("media_id", .str v.MediaId), ("title", .str v.Title),
    ("description", .str v.Description)]

/-- The object `encoding/json` writes for a `Music` value. -/
def Music.toJson (m : Music) : Json :=
  .obj [("title", .str m.Title), ("description", .str m.Description),
    ("media_id", .str m.MediaId), ("musicurl", .str m.MusicUrl),
    ("hqmusicurl", .str m.HQMusicUrl), ("thumb_media_id", .str m.ThumbMediaId)]

/-- The object `encoding/json` writes for an `Article` value. -/
def Article.toJson (a : Article) : Json :=
  .obj [("title", .str a.Title), ("description", .str a.Description),
    ("picurl", .str a.PicUrl), ("url", .str a.Url)]

/-- The result of `json.Marshal(msg)`. A field tagged `json:"-"` is left out, the others
appear under their tag in declaration order; a nil pointer is written as `null`. No value of
these types makes the encoder fail. -/
def jsonMarshal : Msg → Except String Json
  | .text m => .ok (.obj [("touser", .str m.ToUserName), ("msgtype", .str m.MsgType),
      ("text", .obj [("content", .str m.Text.Content)])])
  | .image m => .ok (.obj [("touser", .str m.ToUserName), ("msgtype", .str m.MsgType),
      ("image", .obj [("media_id", .str m.Image.MediaId)])])
  | .voice m => .ok (.obj [("touser", .str m.ToUserName), ("msgtype", .str m.MsgType),
      ("voice", .obj [("media_id", .str m.Voice.MediaId)])])
  | .video m => .ok (.obj [("touser", .str m.ToUserName), ("msgtype", .str m.MsgType),
      ("video", match m.Video with
        | none => .null
        | some v => v.toJson)])
  | .music m => .ok (.obj [("touser", .str m.ToUserName), ("msgtype", .str m.MsgType),
      ("music", match m.Music with
        | none => .null
        | some v => v.toJson)])
  | .news m => .ok (.obj [("touser", .str m.ToUserName), ("msgtype", .str m.MsgType),
      ("news", .obj [("articles", match m.Articles.Item with
        | none => .null
        | some items => .arr (items.map Article.toJson))])])

/-! ## The reply path -/

/-- Modelled from the spec: the struct `Request` is declared outside the available source;
`replyMsg` reads its fields `FromUserName` and `ToUserName`, the sender and the recipient of
the inbound request (spec section 6, `Request{fromUser, toUser, ...}`). -/
structure Request where
  FromUserName : String
  ToUserName : String

/-- The `http.ResponseWriter` of the reply: the documents written so far, and the error its
next `Write` returns, if it fails. -/
structure ResponseWriter where
  written : List Xml
  writeErr : Option String

/-- The call `rw.Write(data)`: the writer afterwards and the error returned. -/
def ResponseWriter.Write (rw : ResponseWriter) (data : Xml) : ResponseWriter × Option String :=
  match rw.writeErr with
  | some err => (rw, some err)
  | none => ({ rw with written := rw.written ++ [data] }, none)

/-- What a reply call leaves behind: its outcome, the response writer, and the message struct
as the call built it. -/
structure ReplyRun where
  result : Outcome Unit
  rw : ResponseWriter
  msg : Msg

/-- Method `Weixinmp.replyMsg`; `req` is `this.Request` and `now` the value of
`time.Now().Unix()`. -/
def replyMsg (req : Request) (now : Int) (rw : ResponseWriter) (msg : Msg) : ReplyRun :=
  let v := ((msg.setToUserName req.FromUserName).setFromUserName req.ToUserName).setCreateTime now
  match xmlMarshal v with
  | .error err => ⟨.error err, rw, v⟩
  | .ok data =>
    match rw.Write data with
    | (rw1, some err) => ⟨.error err, rw1, v⟩
    | (rw1, none) => ⟨.ok (), rw1, v⟩

/-- Method `Weixinmp.ReplyTextMsg`. -/
def ReplyTextMsg (req : Request) (now : Int) (rw : ResponseWriter) (content : String) :
    ReplyRun :=
  let msg : textMsg := {}
  let msg := { msg with MsgType := "text" }
  let msg := { msg with Content := content }
  replyMsg req now rw (.text msg)

/-- Method `Weixinmp.ReplyImageMsg`. -/
def ReplyImageMsg (req : Request) (now : Int) (rw : ResponseWriter) (mediaId : String) :
    ReplyRun :=
  let msg : imageMsg := {}
  let msg := { msg with MsgType := "image" }
  let msg := { msg with Image := { msg.Image with MediaId := mediaId } }
  replyMsg req now rw (.image msg)

/-- Method `Weixinmp.ReplyVoiceMsg`. -/
def ReplyVoiceMsg (req : Request) (now : Int) (rw : ResponseWriter) (mediaId : String) :
    ReplyRun :=
  let msg : voiceMsg := {}
  let msg := { msg with MsgType := "voice" }
  let msg := { msg with Voice := { msg.Voice with MediaId := mediaId } }
  replyMsg req now rw (.voice msg)

/-- Method `Weixinmp.ReplyVideoMsg`; `video` is a pointer, `none` when nil. -/
def ReplyVideoMsg (req : Request) (now : Int) (rw : ResponseWriter) (video : Option Video) :
    ReplyRun :=
  let msg : videoMsg := {}
  let msg := { msg with MsgType := "video" }
  let msg := { msg with Video := video }
  replyMsg req now rw (.video msg)

/-- Method `Weixinmp.ReplyMusicMsg`; `music` is a pointer, `none` when nil. -/
def ReplyMusicMsg (req : Request) (now : Int) (rw : ResponseWriter) (music : Option Music) :
    ReplyRun :=
  let msg : musicMsg := {}
  let msg := { msg with MsgType := "music" }
  let msg := { msg with Music := music }
  replyMsg req now rw (.music msg)

/-- Method `Weixinmp.ReplyNewsMsg`; `articles` is a pointer to a slice, `none` when nil, and
`len(*articles)` panics on a nil pointer. -/
def ReplyNewsMsg (req : Request) (now : Int) (rw : ResponseWriter)
    (articles : Option (List Article)) : ReplyRun :=
  let msg : newsMsg := {}
  let msg := { msg with MsgType := "news" }
  match articles with
  | none => ⟨.panic, rw, .news msg⟩
  | some items =>
    let msg := { msg with ArticleCount := (items.length : Int) }
    let msg := { msg with Articles := { msg.Articles with Item := articles } }
    replyMsg req now rw (.news msg)

/-! ## The send path -/

/-- What a send call leaves behind: its outcome, the requests posted, and the message struct
as the call built it. -/
structure SendRun where
  result : Outcome Unit
  sent : List HttpReq
  msg : Msg

/-- Method `Weixinmp.sendMsg`; `env` answers the attempts of `post`. -/
def sendMsg (env : Nat → Attempt errRtn) (touser : String) (msg : Msg) : SendRun :=
  let v := msg.setToUserName touser
  match jsonMarshal v with
  | .error err => ⟨.error err, [], v⟩
  | .ok data =>
    let r := post "message/custom/send" data env
    match r.result with
    | .ok _ => ⟨.ok (), r.state, v⟩
    | .error err => ⟨.error err, r.state, v⟩
    | .panic => ⟨.panic, r.state, v⟩

/-- Method `Weixinmp.SendTextMsg`. -/
def SendTextMsg (env : Nat → Attempt errRtn) (touser : String) (content : String) : SendRun :=
  let msg : textMsg := {}
  let msg := { msg with MsgType := "text" }
  let msg := { msg with Text := { msg.Text with Content := content } }
  sendMsg env touser (.text msg)

/-- Method `Weixinmp.SendImageMsg`. -/
def SendImageMsg (env : Nat → Attempt errRtn) (touser : String) (mediaId : String) : SendRun :=
  let msg : imageMsg := {}
  let msg := { msg with MsgType := "image" }
  let msg := { msg with Image := { msg.Image with MediaId := mediaId } }
  sendMsg env touser (.image msg)

/-- Method `Weixinmp.SendVoiceMsg`. -/
def SendVoiceMsg (env : Nat → Attempt errRtn) (touser : String) (mediaId : String) : SendRun :=
  let msg : voiceMsg := {}
  let msg := { msg with MsgType := "voice" }
  let msg := { msg with Voice := { msg.Voice with MediaId := mediaId } }
  sendMsg env touser (.voice msg)

/-- Method `Weixinmp.SendVideoMsg`; `video` is a pointer, `none` when nil. -/
def SendVideoMsg (env : Nat → Attempt errRtn) (touser : String) (video : Option Video) :
    SendRun :=
  let msg : videoMsg := {}
  let msg := { msg with MsgType := "video" }
  let msg := { msg with Video := video }
  sendMsg env touser (.video msg)

/-- Method `Weixinmp.SendMusicMsg`; `music` is a pointer, `none` when nil. -/
def SendMusicMsg (env : Nat → Attempt errRtn) (touser : String) (music : Option Music) :
    SendRun :=
  let msg : musicMsg := {}
  let msg := { msg with MsgType := "music" }
  let msg := { msg with Music := music }
  sendMsg env touser (.music msg)

/-- Method `Weixinmp.SendNewsMsg`; `articles` is a pointer to a slice, `none` when nil. -/
def SendNewsMsg (env : Nat → Attempt errRtn) (touser : String)
    (articles : Option (List Article)) : SendRun :=
  let msg : newsMsg := {}
  let msg := { msg with MsgType := "news" }
  let msg := { msg with Articles := { msg.Articles with Item := articles } }
  sendMsg env touser (.news msg)

/-! ## Kinds of attempt, as the environment presents them -/

/-- The access token could not be obtained in this attempt. -/
def Attempt.credentialFailure {ρ : Type} (a : Attempt ρ) : Bool :=
  match a.token with
  | .error _ => true
  | .ok _ => false

/-- The HTTP call returned no response object, only an error (a transport failure). -/
def Attempt.noResponse {ρ : Type} (a : Attempt ρ) : Bool :=
  match a.token, a.http.resp, a.http.err with
  | .ok _, none, some _ => true
  | _, _, _ => false

/-- The response of an attempt in which a token was obtained and the HTTP call returned a
response and no error. -/
def Attempt.response {ρ : Type} (a : Attempt ρ) : Option Response :=
  match a.token, a.http.resp, a.http.err with
  | .ok _, some resp, none => some resp
  | _, _, _ => none

/-- The body of that response, when reading it succeeded. -/
def Attempt.raw {ρ : Type} (a : Attempt ρ) : Option Bytes :=
  match a.response with
  | some resp =>
    match resp.body with
    | .ok raw => some raw
    | .error _ => none
  | none => none

/-- A token was obtained and a response object came back, but with an error, or reading its
body failed. -/
def Attempt.brokenTransfer {ρ : Type} (a : Attempt ρ) : Bool :=
  match a.token, a.http.resp, a.http.err with
  | .ok _, some _, some _ => true
  | .ok _, some resp, none =>
    match resp.body with
    | .error _ => true
    | .ok _ => false
  | _, _, _ => false

/-- The body was read and does not decode. -/
def Attempt.undecodable {ρ : Type} (a : Attempt ρ) : Bool :=
  a.raw.isSome &&
    match a.decoded with
    | .error _ => true
    | .ok _ => false

/-- The body was read and decodes with a non-zero `errcode`. -/
def nonZeroErrcode (a : Attempt errRtn) : Bool :=
  a.raw.isSome &&
    match a.decoded with
    | .ok rtn => decide (rtn.ErrCode ≠ 0)
    | .error _ => false

/-- A failed attempt of `post`: credential-fetch failure, broken transfer, undecodable body or
non-zero `errcode`. -/
def postFailure (a : Attempt errRtn) : Bool :=
  a.credentialFailure || a.brokenTransfer || a.undecodable || nonZeroErrcode a

/-- A successful attempt of `post` with body `raw`: the body decodes with `errcode` 0. -/
def postSuccess (a : Attempt errRtn) (raw : Bytes) : Bool :=
  decide (a.raw = some raw) &&
    match a.decoded with
    | .ok rtn => decide (rtn.ErrCode = 0)
    | .error _ => false

/-- The response of a download came with `Content-Type: text/plain` (an error payload). -/
def textPlain (a : Attempt errRtn) : Bool :=
  match a.response with
  | some resp => decide (resp.contentType = "text/plain")
  | none => false

/-- A failed attempt of `DownloadMediaFile`: credential-fetch failure, broken transfer or
`text/plain` error payload. -/
def downloadFailure (a : Attempt errRtn) : Bool :=
  a.credentialFailure || a.brokenTransfer || textPlain a

/-- A successful attempt of `DownloadMediaFile` with body `raw`: a response that is not
`text/plain` and whose body was read. -/
def downloadSuccess (a : Attempt errRtn) (raw : Bytes) : Bool :=
  match a.response with
  | some resp =>
    decide (resp.contentType ≠ "text/plain") &&
      match resp.body with
      | .ok b => decide (b = raw)
      | .error _ => false
  | none => false

/-- The body of an upload response was read and decodes with a non-zero `errcode` and a
non-empty `errmsg`. -/
def uploadRemoteError (a : Attempt uploadRtn) : Bool :=
  a.raw.isSome &&
    match a.decoded with
    | .ok rtn => decide (rtn.ErrCode ≠ 0) && decide (rtn.ErrMsg ≠ "")
    | .error _ => false

/-- A failed attempt of `UploadMediaFile`: credential-fetch failure, broken transfer,
undecodable body, or non-zero `errcode` with a non-empty `errmsg`. -/
def uploadFailure (a : Attempt uploadRtn) : Bool :=
  a.credentialFailure || a.brokenTransfer || a.undecodable || uploadRemoteError a

/-- A successful attempt of `UploadMediaFile` returning `id`: the body decodes with
`errcode` 0 and `media_id = id`. -/
def uploadSuccess (a : Attempt uploadRtn) (id : String) : Bool :=
  a.raw.isSome &&
    match a.decoded with
    | .ok rtn => decide (rtn.ErrCode = 0) && decide (rtn.MediaId = id)
    | .error _ => false

/-- The steps before the retry loop of `UploadMediaFile` all succeed. -/
def localOk : UploadLocal := ⟨none, none, none⟩

/-- A disk on which `os.Create` and `file.Write` succeed. -/
def diskOk : Disk := ⟨none, none⟩

/-- What the local steps of a download (`os.Create`, `file.Write`) make the call return. -/
def Disk.outcome (disk : Disk) : Outcome Unit :=
  match disk.createErr with
  | some err => .error err
  | none =>
    match disk.writeErr with
    | some (_, err) => .error err
    | none => .ok ()

/-- The body was read and decodes with a non-zero `errcode`, whatever its `errmsg`. -/
def uploadNonZeroErrcode (a : Attempt uploadRtn) : Bool :=
  a.raw.isSome &&
    match a.decoded with
    | .ok rtn => decide (rtn.ErrCode ≠ 0)
    | .error _ => false

/-- The attempt budget of a run `r` over the attempts 0, 1, 2, where `failed j` says that
attempt `j` fails, `success j o` that attempt `j` succeeds and makes the call return `o`, and
`after` is what the call returns once the attempts are used up:
the run makes at most `retryNum` attempts; it stops at the first successful attempt; when
every attempt fails it makes exactly `retryNum` attempts and returns `after`; and when every
attempt either fails or succeeds with a nil error, an error is returned only after `retryNum`
failed attempts. -/
def BudgetRule {α σ : Type} (r : Run α σ) (failed : Nat → Prop)
    (success : Nat → Outcome α → Prop) (after : Outcome α) : Prop :=
  r.attempts ≤ retryNum ∧
    (∀ k o, k < retryNum → (∀ j, j < k → failed j) → success k o →
      r.result = o ∧ r.attempts = k + 1) ∧
    ((∀ j, j < retryNum → failed j) → r.result = after ∧ r.attempts = retryNum) ∧
    ((∀ j, j < retryNum → failed j ∨ ∃ v, success j (.ok v)) →
      ∀ e, r.result = .error e → r.attempts = retryNum ∧ ∀ j, j < retryNum → failed j)

/-! ## Sample environments -/

/-- A response without transport error. -/
def respOf (contentType : String) (body : String) : HttpResult :=
  ⟨some ⟨contentType, .ok (bytesOf body)⟩, none⟩

/-- A transport failure: no response object, only an error. -/
def refused : HttpResult := ⟨none, some "dial tcp: connection refused"⟩

/-- An attempt of `post` answered with `errcode` 0. -/
def postOkAttempt : Attempt errRtn :=
  ⟨.ok "TOKEN", respOf "application/json" "\x7b\"errcode\":0,\"errmsg\":\"ok\"\x7d", .ok ⟨0, "ok"⟩⟩

/-- An attempt in which the access token cannot be obtained. -/
def noTokenAttempt {ρ : Type} : Attempt ρ :=
  ⟨.error "get access token failed", ⟨none, none⟩, .error "not reached"⟩

/-- An attempt answered with the error payload `40007 invalid media_id`. -/
def invalidMediaAttempt : Attempt errRtn :=
  ⟨.ok "TOKEN", respOf "text/plain" "\x7b\"errcode\":40007,\"errmsg\":\"invalid media_id\"\x7d",
    .ok ⟨40007, "invalid media_id"⟩⟩

/-- An upload attempt answered with the error payload `40004 invalid media type`. -/
def invalidTypeAttempt : Attempt uploadRtn :=
  ⟨.ok "TOKEN", respOf "application/json" "\x7b\"errcode\":40004,\"errmsg\":\"invalid media type\"\x7d",
    .ok { ErrCode := 40004, ErrMsg := "invalid media type" }⟩

/-- An upload attempt answered with a media id. -/
def uploadOkAttempt : Attempt uploadRtn :=
  ⟨.ok "TOKEN",
    respOf "application/json" "\x7b\"type\":\"image\",\"media_id\":\"MEDIA1\",\"created_at\":1\x7d",
    .ok { Typ := "image", MediaId := "MEDIA1", CreatedAt := 1 }⟩

/-- An upload attempt answered with a non-zero `errcode` and no `errmsg`. -/
def bareErrcodeAttempt : Attempt uploadRtn :=
  ⟨.ok "TOKEN", respOf "application/json" "\x7b\"errcode\":40004\x7d", .ok { ErrCode := 40004 }⟩

/-- A download attempt answered with a binary body. -/
def binaryAttempt : Attempt errRtn :=
  ⟨.ok "TOKEN", ⟨some ⟨"image/jpeg", .ok [255, 216, 255, 224]⟩, none⟩, .error "not reached"⟩

/-- An attempt whose HTTP call fails without a response object. -/
def refusedAttempt {ρ : Type} : Attempt ρ := ⟨.ok "TOKEN", refused, .error "not reached"⟩

/-- An upload attempt answered with `errcode` 45009 and no `errmsg`. -/
def bareLimitAttempt : Attempt uploadRtn :=
  ⟨.ok "TOKEN", respOf "application/json" "\x7b\"errcode\":45009\x7d", .ok { ErrCode := 45009 }⟩

/-- The token endpoint fails twice, then the call is answered with `errcode` 0. -/
def tokenFailsTwice : Nat → Attempt errRtn :=
  fun i => if i < 2 then noTokenAttempt else postOkAttempt

/-- The first HTTP call fails without a response object, the later ones are answered with
`errcode` 0. -/
def refusedThenOk : Nat → Attempt errRtn :=
  fun i => if i = 0 then refusedAttempt else postOkAttempt

/-- The first HTTP call fails without a response object, the later ones deliver the file. -/
def refusedThenBinary : Nat → Attempt errRtn :=
  fun i => if i = 0 then refusedAttempt else binaryAttempt

/-- The first HTTP call fails without a response object, the later ones return a media id. -/
def refusedThenUploaded : Nat → Attempt uploadRtn :=
  fun i => if i = 0 then refusedAttempt else uploadOkAttempt

/-- The first upload is answered with a bare `errcode`, the later ones return a media id. -/
def bareLimitThenUploaded : Nat → Attempt uploadRtn :=
  fun i => if i = 0 then bareLimitAttempt else uploadOkAttempt

/-- The first upload is answered with an error payload, the later ones return a media id. -/
def invalidTypeThenUploaded : Nat → Attempt uploadRtn :=
  fun i => if i = 0 then invalidTypeAttempt else uploadOkAttempt

/-- The first download is answered with an error payload, the later ones deliver the file. -/
def invalidMediaThenBinary : Nat → Attempt errRtn :=
  fun i => if i = 0 then invalidMediaAttempt else binaryAttempt

/-- The body of `postOkAttempt`. -/
def okBody : Bytes := bytesOf "\x7b\"errcode\":0,\"errmsg\":\"ok\"\x7d"

/-- A disk on which the file is created and the write fails after two bytes. -/
def diskFull : Disk := ⟨none, some (2, "write: no space left on device")⟩

/-- An inbound request from user `alice` to the account `shop`. -/
def sampleRequest : Request := ⟨"alice", "shop"⟩

/-- A response writer that has written nothing yet and accepts writes. -/
def freshWriter : ResponseWriter := ⟨[], none⟩

/-- A video with a title and no media id. -/
def videoWithoutMediaId : Video := { MediaId := "", Title := "holiday" }

/-- Three articles. -/
def threeArticles : List Article :=
  [{ Title := "one" }, { Title := "two" }, { Title := "three" }]

/-! ## The loop statement -/

theorem range_retryNum : List.range retryNum = [0, 1, 2] := by decide

/-- A run never starts more iterations than the loop has indices. -/
theorem forRetry_attempts_le {α σ : Type} (body : Nat → σ → Step α × σ) (after : Outcome α)
    (l : List Nat) (s : σ) : (forRetry body after l s).attempts ≤ l.length := by
  induction l generalizing s with
  | nil => simp [forRetry]
  | cons i rest ih =>
    simp only [forRetry]
    split
    · have := ih (s := ‹σ›)
      simp only [List.length_cons]
      omega
    · simp

/-- When every iteration continues, the loop runs through all its indices and the function
returns what follows the loop. -/
theorem forRetry_all_next {α σ : Type} (body : Nat → σ → Step α × σ) (after : Outcome α)
    (l : List Nat) (s : σ) (h : ∀ j ∈ l, ∀ t, (body j t).1 = .next) :
    (forRetry body after l s).result = after ∧ (forRetry body after l s).attempts = l.length := by
  induction l generalizing s with
  | nil => simp [forRetry]
  | cons i rest ih =>
    have hi := h i (List.mem_cons_self _ _) s
    have hrest : ∀ j ∈ rest, ∀ t, (body j t).1 = .next :=
      fun j hj t => h j (List.mem_cons_of_mem _ hj) t
    simp only [forRetry]
    split
    · rename_i s1 _
      have := ih s1 hrest
      simp [this.1, this.2]
    · rename_i o s1 heq
      rw [heq] at hi
      cases hi

/-- When the iterations before index `k` continue and iteration `k` leaves the function with
outcome `o`, the run ends with `o` after `k`'s iteration. -/
theorem forRetry_stop {α σ : Type} (body : Nat → σ → Step α × σ) (after : Outcome α)
    (pre : List Nat) (k : Nat) (rest : List Nat) (o : Outcome α) (s : σ)
    (h : ∀ j ∈ pre, ∀ t, (body j t).1 = .next) (hk : ∀ t, (body k t).1 = .done o) :
    (forRetry body after (pre ++ k :: rest) s).result = o ∧
      (forRetry body after (pre ++ k :: rest) s).attempts = pre.length + 1 := by
  induction pre generalizing s with
  | nil =>
    have hk1 := hk s
    simp only [List.nil_append, forRetry]
    split
    · rename_i heq
      rw [heq] at hk1
      cases hk1
    · rename_i o1 s1 heq
      rw [heq] at hk1
      simp only [Step.done.injEq] at hk1
      simp [hk1]
  | cons i pre ih =>
    have hi := h i (List.mem_cons_self _ _) s
    have hpre : ∀ j ∈ pre, ∀ t, (body j t).1 = .next :=
      fun j hj t => h j (List.mem_cons_of_mem _ hj) t
    simp only [List.cons_append, forRetry]
    split
    · rename_i s1 _
      have := ih s1 hpre
      simp [this.1, this.2]
    · rename_i o1 s1 heq
      rw [heq] at hi
      cases hi

/-- The shape of a run over the indices 0, 1, 2 in which the first `k` iterations continue
and iteration `k < 3` leaves the function. -/
theorem forRetry_three_stop {α σ : Type} (body : Nat → σ → Step α × σ) (after : Outcome α)
    (k : Nat) (o : Outcome α) (s : σ) (hk : k < retryNum)
    (h : ∀ j, j < k → ∀ t, (body j t).1 = .next) (hdone : ∀ t, (body k t).1 = .done o) :
    (forRetry body after (List.range retryNum) s).result = o ∧
      (forRetry body after (List.range retryNum) s).attempts = k + 1 := by
  have hsplit : List.range retryNum = List.range k ++ k :: (List.range retryNum).drop (k + 1) := by
    simp only [retryNum] at hk ⊢
    interval_cases k <;> decide
  rw [hsplit]
  have := forRetry_stop body after (List.range k) k ((List.range retryNum).drop (k + 1)) o s
    (fun j hj t => h j (List.mem_range.mp hj) t) hdone
  simpa using this

/-- The shape of a run over the indices 0, 1, 2 in which every iteration continues. -/
theorem forRetry_three_exhausted {α σ : Type} (body : Nat → σ → Step α × σ)
    (after : Outcome α) (s : σ) (h : ∀ j, j < retryNum → ∀ t, (body j t).1 = .next) :
    (forRetry body after (List.range retryNum) s).result = after ∧
      (forRetry body after (List.range retryNum) s).attempts = retryNum := by
  have := forRetry_all_next body after (List.range retryNum) s
    (fun j hj t => h j (List.mem_range.mp hj) t)
  simpa using this

/-! ## How the loop bodies react to each kind of attempt -/

theorem postAttempt_failure (action : String) (data : Json) (env : Nat → Attempt errRtn)
    (i : Nat) (sent : List HttpReq) (hi : i < retryNum) (h : postFailure (env i) = true) :
    (postAttempt action data env i sent).1 = .next := by
  unfold postFailure Attempt.credentialFailure Attempt.brokenTransfer Attempt.undecodable
    nonZeroErrcode Attempt.raw Attempt.response at h
  unfold postAttempt
  rcases hE : env i with ⟨tok, ⟨resp, err⟩, dec⟩
  rw [hE] at h
  rcases tok with e | t <;> rcases resp with _ | ⟨ct, body⟩ <;> rcases err with _ | e2 <;>
    first
    | (simp [hi] at h ⊢; done)
    | (rcases body with e3 | raw <;> rcases dec with e4 | rtn <;> simp_all)

theorem postAttempt_success (action : String) (data : Json) (env : Nat → Attempt errRtn)
    (i : Nat) (sent : List HttpReq) (raw : Bytes) (h : postSuccess (env i) raw = true) :
    (postAttempt action data env i sent).1 = .done (.ok raw) := by
  unfold postSuccess Attempt.raw Attempt.response at h
  unfold postAttempt
  rcases hE : env i with ⟨tok, ⟨resp, err⟩, dec⟩
  rw [hE] at h
  rcases tok with e | t <;> rcases resp with _ | ⟨ct, body⟩ <;> rcases err with _ | e2 <;>
    first
    | (simp at h ⊢; done)
    | (rcases body with e3 | raw1 <;> rcases dec with e4 | rtn <;> simp_all)

theorem downloadAttempt_failure (env : Nat → Attempt errRtn) (disk : Disk) (i : Nat)
    (file : Option Bytes) (hi : i < retryNum) (h : downloadFailure (env i) = true) :
    downloadAttempt env disk i file = (.next, file) := by
  unfold downloadFailure Attempt.credentialFailure Attempt.brokenTransfer textPlain
    Attempt.response at h
  unfold downloadAttempt
  rcases hE : env i with ⟨tok, ⟨resp, err⟩, dec⟩
  rw [hE] at h
  rcases tok with e | t <;> rcases resp with _ | ⟨ct, body⟩ <;> rcases err with _ | e2 <;>
    first
    | (simp [hi] at h ⊢; done)
    | (rcases body with e3 | raw <;> simp_all)

theorem downloadAttempt_success (env : Nat → Attempt errRtn) (disk : Disk) (i : Nat)
    (file : Option Bytes) (raw : Bytes) (h : downloadSuccess (env i) raw = true) :
    (downloadAttempt env disk i file).1 = .done disk.outcome := by
  unfold downloadSuccess Attempt.response at h
  unfold downloadAttempt Disk.outcome
  rcases hE : env i with ⟨tok, ⟨resp, err⟩, dec⟩
  rw [hE] at h
  rcases disk with ⟨ce, we⟩
  rcases tok with e | t <;> rcases resp with _ | ⟨ct, body⟩ <;> rcases err with _ | e2 <;>
    first
    | (simp at h ⊢; done)
    | (rcases body with e3 | raw1 <;> rcases ce with _ | e5 <;> rcases we with _ | ⟨n, e6⟩ <;>
        simp_all)

/-- An iteration of the download loop that leaves the function either leaves the file as it
was and reports no success, or it followed a binary response whose body was read and a
successful `os.Create`: then the file holds the whole body and the call succeeds, or the
write failed part-way and the file holds what was written. -/
theorem downloadAttempt_done (env : Nat → Attempt errRtn) (disk : Disk) (i : Nat)
    (file st : Option Bytes) (o : Outcome Unit) (hi : i < retryNum)
    (h : downloadAttempt env disk i file = (.done o, st)) :
    (st = file ∧ o ≠ .ok ()) ∨
      (∃ raw, downloadSuccess (env i) raw = true ∧ disk.createErr = none ∧
        ((disk.writeErr = none ∧ o = .ok () ∧ st = some raw) ∨
          (∃ n e, disk.writeErr = some (n, e) ∧ o = .error e ∧ st = some (raw.take n)))) := by
  unfold downloadSuccess Attempt.response
  unfold downloadAttempt at h
  rcases hE : env i with ⟨tok, ⟨resp, err⟩, dec⟩
  rw [hE] at h
  rcases disk with ⟨ce, we⟩
  rcases tok with e | t <;> rcases resp with _ | ⟨ct, body⟩ <;> rcases err with _ | e2 <;>
    simp [hi] at h ⊢
  · obtain ⟨rfl, rfl⟩ := h
    simp
  · obtain ⟨rfl, rfl⟩ := h
    simp
  · by_cases hct : ct = "text/plain"
    · simp [hct] at h
    · rcases body with e3 | raw <;> rcases ce with _ | e5 <;> rcases we with _ | ⟨n, e6⟩ <;>
        simp [hct] at h <;> obtain ⟨rfl, rfl⟩ := h <;>
        first
        | (simp [hct]; done)
        | exact Or.inr ⟨raw, by simp [hct], rfl, Or.inr ⟨n, e6, rfl, rfl, rfl⟩⟩

theorem uploadAttempt_failure (env : Nat → Attempt uploadRtn) (i : Nat) (s : Unit)
    (hi : i < retryNum) (h : uploadFailure (env i) = true) :
    uploadAttempt env i s = (.next, s) := by
  unfold uploadFailure Attempt.credentialFailure Attempt.brokenTransfer Attempt.undecodable
    uploadRemoteError Attempt.raw Attempt.response at h
  unfold uploadAttempt
  rcases hE : env i with ⟨tok, ⟨resp, err⟩, dec⟩
  rw [hE] at h
  rcases tok with e | t <;> rcases resp with _ | ⟨ct, body⟩ <;> rcases err with _ | e2 <;>
    first
    | (simp [hi] at h ⊢; done)
    | (rcases body with e3 | raw <;> rcases dec with e4 | rtn <;> simp_all)

theorem uploadAttempt_success (env : Nat → Attempt uploadRtn) (i : Nat) (s : Unit)
    (id : String) (h : uploadSuccess (env i) id = true) :
    (uploadAttempt env i s).1 = .done (.ok id) := by
  unfold uploadSuccess Attempt.raw Attempt.response at h
  unfold uploadAttempt
  rcases hE : env i with ⟨tok, ⟨resp, err⟩, dec⟩
  rw [hE] at h
  rcases tok with e | t <;> rcases resp with _ | ⟨ct, body⟩ <;> rcases err with _ | e2 <;>
    first
    | (simp at h ⊢; done)
    | (rcases body with e3 | raw1 <;> rcases dec with e4 | rtn <;> simp_all)

/-- An iteration of the upload loop that returns a media id with a nil error read a body
that decodes with `errcode` 0 or with an empty `errmsg`, and returns its `media_id`. -/
theorem uploadAttempt_ok (env : Nat → Attempt uploadRtn) (i : Nat) (s t : Unit) (id : String)
    (hi : i < retryNum) (h : uploadAttempt env i s = (.done (.ok id), t)) :
    ∃ rtn, (env i).raw.isSome = true ∧ (env i).decoded = .ok rtn ∧
      (rtn.ErrCode = 0 ∨ rtn.ErrMsg = "") ∧ id = rtn.MediaId := by
  unfold Attempt.raw Attempt.response
  unfold uploadAttempt at h
  rcases hE : env i with ⟨tok, ⟨resp, err⟩, dec⟩
  rw [hE] at h
  rcases tok with e | t <;> rcases resp with _ | ⟨ct, body⟩ <;> rcases err with _ | e2 <;>
    simp [hi] at h ⊢
  rcases body with e3 | raw1 <;> rcases dec with e4 | rtn <;> simp [hi] at h ⊢
  by_cases hc : rtn.ErrCode = 0
  · simp [hc] at h
    exact ⟨Or.inl hc, h.symm⟩
  · by_cases hm : rtn.ErrMsg = ""
    · simp [hc, hm] at h
      exact ⟨Or.inr hm, h.symm⟩
    · simp [hc, hm] at h

/-- A run of a loop whose continuing iterations leave the state alone either runs through
all its indices, or ends in the iteration that left the function, after the iterations before
it continued. -/
theorem forRetry_cases {α σ : Type} (body : Nat → σ → Step α × σ) (after : Outcome α)
    (l : List Nat) (s : σ) (hnext : ∀ i ∈ l, ∀ t u, body i t = (.next, u) → u = t) :
    ((forRetry body after l s).result = after ∧ (forRetry body after l s).state = s ∧
        (forRetry body after l s).attempts = l.length ∧ ∀ i ∈ l, body i s = (.next, s)) ∨
      ∃ n i, l[n]? = some i ∧
        (∀ m j, m < n → l[m]? = some j → body j s = (.next, s)) ∧
        body i s = (.done (forRetry body after l s).result, (forRetry body after l s).state) ∧
        (forRetry body after l s).attempts = n + 1 := by
  induction l with
  | nil => simp [forRetry]
  | cons i rest ih =>
    have ih1 := ih (fun j hj t u hb => hnext j (List.mem_cons_of_mem _ hj) t u hb)
    simp only [forRetry]
    split
    · rename_i s1 heq
      have hs : s1 = s := hnext i (List.mem_cons_self _ _) s s1 heq
      subst hs
      rcases ih1 with ⟨h1, h2, h3, h4⟩ | ⟨n, j, hj, hpre, hb, hatt⟩
      · refine Or.inl ⟨h1, h2, by simp [h3], ?_⟩
        intro j hj
        rcases List.mem_cons.mp hj with rfl | hj
        · exact heq
        · exact h4 j hj
      · refine Or.inr ⟨n + 1, j, by simpa using hj, ?_, hb, by simp [hatt]⟩
        intro m j1 hm hj1
        cases m with
        | zero =>
          simp only [List.getElem?_cons_zero, Option.some.injEq] at hj1
          subst hj1
          exact heq
        | succ m =>
          simp only [List.getElem?_cons_succ] at hj1
          exact hpre m j1 (by omega) hj1
    · rename_i o s1 heq
      exact Or.inr ⟨0, i, by simp, by intro m j hm; omega, heq, by simp⟩

theorem getElem?_range_retryNum (n i : Nat) (h : (List.range retryNum)[n]? = some i) :
    i = n ∧ n < retryNum := by
  rcases List.getElem?_eq_some_iff.mp h with ⟨hn, hi⟩
  simp only [List.length_range] at hn
  simp only [List.getElem_range] at hi
  exact ⟨hi.symm, hn⟩

/-- Among three attempts that each fail or succeed, either all fail or there is a first one
that succeeds. -/
theorem first_success_split (F S : Nat → Prop) (h : ∀ j, j < retryNum → F j ∨ S j) :
    (∀ j, j < retryNum → F j) ∨ ∃ k, k < retryNum ∧ (∀ j, j < k → F j) ∧ S k := by
  simp only [retryNum] at h ⊢
  rcases h 0 (by omega) with h0 | h0
  · rcases h 1 (by omega) with h1 | h1
    · rcases h 2 (by omega) with h2 | h2
      · left
        intro j hj
        interval_cases j <;> assumption
      · right
        refine ⟨2, by omega, ?_, h2⟩
        intro j hj
        interval_cases j <;> assumption
    · right
      refine ⟨1, by omega, ?_, h1⟩
      intro j hj
      interval_cases j
      assumption
  · exact Or.inr ⟨0, by omega, by intro j hj; omega, h0⟩

/-! ## The retry loops: what the code does -/

theorem post_stops_at_first_success (action : String) (data : Json)
    (env : Nat → Attempt errRtn) (k : Nat) (raw : Bytes) (hk : k < retryNum)
    (hfail : ∀ j, j < k → postFailure (env j) = true) (hok : postSuccess (env k) raw = true) :
    (post action data env).result = .ok raw ∧ (post action data env).attempts = k + 1 :=
  forRetry_three_stop _ _ k (.ok raw) [] hk
    (fun j hj t => postAttempt_failure action data env j t (by omega) (hfail j hj))
    (fun t => postAttempt_success action data env k t raw hok)

theorem budgetRule_of_body {α σ : Type} (body : Nat → σ → Step α × σ) (after : Outcome α)
    (s : σ) (failed : Nat → Prop) (success : Nat → Outcome α → Prop)
    (hf : ∀ j, j < retryNum → failed j → ∀ t, (body j t).1 = .next)
    (hs : ∀ j o, j < retryNum → success j o → ∀ t, (body j t).1 = .done o) :
    BudgetRule (forRetry body after (List.range retryNum) s) failed success after := by
  have hstop : ∀ k o, k < retryNum → (∀ j, j < k → failed j) → success k o →
      (forRetry body after (List.range retryNum) s).result = o ∧
        (forRetry body after (List.range retryNum) s).attempts = k + 1 :=
    fun k o hk hfail hok =>
      forRetry_three_stop body after k o s hk (fun j hj => hf j (by omega) (hfail j hj))
        (hs k o hk hok)
  have hall : (∀ j, j < retryNum → failed j) →
      (forRetry body after (List.range retryNum) s).result = after ∧
        (forRetry body after (List.range retryNum) s).attempts = retryNum :=
    fun hfail => forRetry_three_exhausted body after s (fun j hj => hf j hj (hfail j hj))
  refine ⟨?_, hstop, hall, ?_⟩
  · have := forRetry_attempts_le body after (List.range retryNum) s
    simpa using this
  · intro hcl e he
    rcases first_success_split failed (fun j => ∃ v, success j (.ok v)) hcl with
      hfail | ⟨k, hk, hfail, v, hv⟩
    · exact ⟨(hall hfail).2, hfail⟩
    · rw [(hstop k (.ok v) hk hfail hv).1] at he
      cases he

theorem downloadAttempt_next (env : Nat → Attempt errRtn) (disk : Disk) (i : Nat)
    (t u : Option Bytes) (h : downloadAttempt env disk i t = (.next, u)) : u = t := by
  unfold downloadAttempt at h
  repeat' split at h
  all_goals
    first
    | (cases h; rfl)
    | (cases h)

/-! ## The claims about the retry loops -/

/-- C1 (the code at the failing inputs): when all three attempts fail, `post`,
`DownloadMediaFile` and `UploadMediaFile` return their generic message, not the cause seen on
the last attempt: neither the remote `40007 invalid media_id` / `40004 invalid media type`
nor the credential-fetch error. -/
theorem exhausted_runs_return_generic_error :
    nonZeroErrcode invalidMediaAttempt = true ∧
      textPlain invalidMediaAttempt = true ∧
      uploadRemoteError invalidTypeAttempt = true ∧
      (post "message/custom/send" .null (fun _ => invalidMediaAttempt)).result =
        .error "send post request failed: message/custom/send" ∧
      (post "message/custom/send" .null (fun _ => noTokenAttempt)).result =
        .error "send post request failed: message/custom/send" ∧
      (DownloadMediaFile (fun _ => invalidMediaAttempt) diskOk none).result =
        .error "download media file failed" ∧
      (DownloadMediaFile (fun _ => noTokenAttempt) diskOk none).result =
        .error "download media file failed" ∧
      (UploadMediaFile localOk (fun _ => invalidTypeAttempt)).result =
        .error "upload media file failed" ∧
      (UploadMediaFile localOk (fun _ => noTokenAttempt)).result =
        .error "upload media file failed" := by
  decide

/-- C2 (the code at the failing inputs): when the HTTP call of the first attempt returns an
error and no response object, `post`, `DownloadMediaFile` and `UploadMediaFile` panic in that
first attempt, although the second attempt would have succeeded. -/
theorem nil_response_panics :
    (refusedThenOk 0).noResponse = true ∧
      (refusedThenBinary 0).noResponse = true ∧
      (refusedThenUploaded 0).noResponse = true ∧
      (post "message/custom/send" .null refusedThenOk).result = .panic ∧
      (post "message/custom/send" .null refusedThenOk).attempts = 1 ∧
      postSuccess (refusedThenOk 1) okBody = true ∧
      (DownloadMediaFile refusedThenBinary diskOk none).result = .panic ∧
      (DownloadMediaFile refusedThenBinary diskOk none).attempts = 1 ∧
      downloadSuccess (refusedThenBinary 1) [255, 216, 255, 224] = true ∧
      (UploadMediaFile localOk refusedThenUploaded).result = .panic ∧
      (UploadMediaFile localOk refusedThenUploaded).attempts = 1 ∧
      uploadSuccess (refusedThenUploaded 1) "MEDIA1" = true := by
  decide

/-- C3: if the first `k < 3` attempts of `post` fail (no access token, a broken transfer, an
undecodable body or a non-zero errcode) and attempt `k + 1` is answered with a body that
decodes with errcode 0, then `post` returns that body with a nil error, after `k + 1`
attempts. -/
theorem post_recovers_after_failed_attempts (action : String) (data : Json)
    (env : Nat → Attempt errRtn) (k : Nat) (raw : Bytes) (hk : k < retryNum)
    (hfail : ∀ j, j < k → postFailure (env j) = true) (hok : postSuccess (env k) raw = true) :
    (post action data env).result = .ok raw ∧ (post action data env).attempts = k + 1 :=
  post_stops_at_first_success action data env k raw hk hfail hok

/-- C3 at a token endpoint that fails twice and then succeeds: the third response's body is
returned. -/
theorem post_recovers_after_failed_attempts_witness :
    (post "message/custom/send" .null tokenFailsTwice).result = .ok okBody ∧
      (post "message/custom/send" .null tokenFailsTwice).attempts = 2 + 1 :=
  post_recovers_after_failed_attempts "message/custom/send" .null tokenFailsTwice 2 okBody
    (by decide) (by decide) (by decide)

/-- C4 (as stated, refuted): an upload response that decodes with errcode 40004 and an empty
errmsg is returned as a success, with the empty media id and a nil error, in the first
attempt. -/
theorem upload_bare_errcode_returned_as_success :
    uploadNonZeroErrcode bareErrcodeAttempt = true ∧
      (UploadMediaFile localOk (fun _ => bareErrcodeAttempt)).result = .ok "" ∧
      (UploadMediaFile localOk (fun _ => bareErrcodeAttempt)).attempts = 1 := by
  decide

/-- C4 (amended): `UploadMediaFile` returns a media id with a nil error only when the
response of the returning attempt decoded with errcode 0 or with an empty errmsg, and the id
is that response's `media_id`; an attempt whose response decodes with a non-zero errcode and
a non-empty errmsg is never returned as success: the loop continues with the next attempt. -/
theorem upload_success_needs_zero_errcode_or_empty_errmsg (loc : UploadLocal)
    (env : Nat → Attempt uploadRtn) :
    (∀ id, (UploadMediaFile loc env).result = .ok id →
      ∃ i rtn, i < retryNum ∧ (UploadMediaFile loc env).attempts = i + 1 ∧
        (env i).decoded = .ok rtn ∧ (rtn.ErrCode = 0 ∨ rtn.ErrMsg = "") ∧
        id = rtn.MediaId) ∧
      (∀ i, i < retryNum → uploadRemoteError (env i) = true →
        uploadAttempt env i () = (.next, ())) := by
  constructor
  · intro id h
    unfold UploadMediaFile at h ⊢
    rcases loc with ⟨_ | e1, _ | e2, _ | e3⟩ <;> simp at h ⊢
    rcases forRetry_cases (uploadAttempt env) (.error "upload media file failed")
        (List.range retryNum) () (fun _ _ _ _ _ => rfl) with ⟨h1, _⟩ | ⟨n, i, hn, _, hb, hatt⟩
    · rw [h] at h1
      cases h1
    · obtain ⟨rfl, hlt⟩ := getElem?_range_retryNum n i hn
      rw [h] at hb
      obtain ⟨rtn, _, hdec, hcode, hid⟩ := uploadAttempt_ok env i () _ id hlt hb
      exact ⟨i, hlt, hatt, rtn, hdec, hcode, hid⟩
  · intro i hi h
    apply uploadAttempt_failure env i () hi
    simp [uploadFailure, h]

/-- C4 (amended) at an upload rejected once with `40004 invalid media type` and then
accepted: the media id returned is the one of the second response, which has errcode 0. -/
theorem upload_success_needs_zero_errcode_or_empty_errmsg_witness :
    (∃ i rtn, i < retryNum ∧
        (UploadMediaFile localOk invalidTypeThenUploaded).attempts = i + 1 ∧
        (invalidTypeThenUploaded i).decoded = .ok rtn ∧ (rtn.ErrCode = 0 ∨ rtn.ErrMsg = "") ∧
        "MEDIA1" = rtn.MediaId) ∧
      uploadAttempt invalidTypeThenUploaded 0 () = (.next, ()) :=
  ⟨(upload_success_needs_zero_errcode_or_empty_errmsg localOk invalidTypeThenUploaded).1
      "MEDIA1" (by decide),
    (upload_success_needs_zero_errcode_or_empty_errmsg localOk invalidTypeThenUploaded).2
      0 (by decide) (by decide)⟩

/-- C10 (as stated, refuted): an upload whose first response decodes with the non-zero
errcode 45009 and an empty errmsg, and whose second response carries a media id, stops after
the first attempt and returns the empty media id of the first response with a nil error: it
does not stop at the first successful attempt. -/
theorem upload_stops_before_first_success :
    uploadNonZeroErrcode (bareLimitThenUploaded 0) = true ∧
      uploadSuccess (bareLimitThenUploaded 1) "MEDIA1" = true ∧
      (UploadMediaFile localOk bareLimitThenUploaded).attempts = 1 ∧
      (UploadMediaFile localOk bareLimitThenUploaded).result = .ok "" := by
  decide

/-- C10 (amended): the three retry loops apply the same attempt budget. For every sequence of
attempt outcomes, each of `post`, `DownloadMediaFile` and `UploadMediaFile` makes at most
`retryNum = 3` attempts, stops at the first successful attempt when the attempts before it
failed, and returns an error for remote failures only after exactly 3 failed attempts, its
generic message then. A failed attempt is a credential-fetch failure, a broken transfer, and:
for `post` an undecodable body or a non-zero errcode; for `DownloadMediaFile` a `text/plain`
error payload; for `UploadMediaFile` an undecodable body or a non-zero errcode together with
a non-empty errmsg. -/
theorem retry_budget_shared :
    (∀ (action : String) (data : Json) (env : Nat → Attempt errRtn),
      BudgetRule (post action data env) (fun j => postFailure (env j) = true)
        (fun j o => ∃ raw, postSuccess (env j) raw = true ∧ o = .ok raw)
        (.error ("send post request failed: " ++ action))) ∧
      (∀ (env : Nat → Attempt errRtn) (disk : Disk) (file : Option Bytes),
        BudgetRule (DownloadMediaFile env disk file) (fun j => downloadFailure (env j) = true)
          (fun j o => ∃ raw, downloadSuccess (env j) raw = true ∧ o = disk.outcome)
          (.error "download media file failed")) ∧
      (∀ (env : Nat → Attempt uploadRtn),
        BudgetRule (UploadMediaFile localOk env) (fun j => uploadFailure (env j) = true)
          (fun j o => ∃ id, uploadSuccess (env j) id = true ∧ o = .ok id)
          (.error "upload media file failed")) := by
  refine ⟨?_, ?_, ?_⟩
  · intro action data env
    apply budgetRule_of_body
    · intro j hj h t
      exact postAttempt_failure action data env j t hj h
    · rintro j o hj ⟨raw, h, rfl⟩ t
      exact postAttempt_success action data env j t raw h
  · intro env disk file
    apply budgetRule_of_body
    · intro j hj h t
      rw [downloadAttempt_failure env disk j t hj h]
    · rintro j o hj ⟨raw, h, rfl⟩ t
      exact downloadAttempt_success env disk j t raw h
  · intro env
    apply budgetRule_of_body
    · intro j hj h t
      rw [uploadAttempt_failure env j t hj h]
    · rintro j o hj ⟨id, h, rfl⟩ t
      exact uploadAttempt_success env j t id h

/-- C10 (amended) at three runs: a token endpoint that fails twice before the post succeeds,
a download rejected once with `40007 invalid media_id` before the file is delivered, and an
upload rejected once with `40004 invalid media type` before it is accepted. -/
theorem retry_budget_shared_witness :
    ((post "message/custom/send" .null tokenFailsTwice).result = .ok okBody ∧
        (post "message/custom/send" .null tokenFailsTwice).attempts = 2 + 1) ∧
      ((DownloadMediaFile invalidMediaThenBinary diskOk none).result = diskOk.outcome ∧
        (DownloadMediaFile invalidMediaThenBinary diskOk none).attempts = 1 + 1) ∧
      ((UploadMediaFile localOk invalidTypeThenUploaded).result = .ok "MEDIA1" ∧
        (UploadMediaFile localOk invalidTypeThenUploaded).attempts = 1 + 1) ∧
      ((UploadMediaFile localOk (fun _ => invalidTypeAttempt)).result =
          .error "upload media file failed" ∧
        (UploadMediaFile localOk (fun _ => invalidTypeAttempt)).attempts = retryNum) :=
  ⟨(retry_budget_shared.1 "message/custom/send" .null tokenFailsTwice).2.1 2 (.ok okBody)
      (by decide) (by decide) ⟨okBody, by decide, rfl⟩,
    (retry_budget_shared.2.1 invalidMediaThenBinary diskOk none).2.1 1 diskOk.outcome
      (by decide) (by decide) ⟨[255, 216, 255, 224], by decide, rfl⟩,
    (retry_budget_shared.2.2 invalidTypeThenUploaded).2.1 1 (.ok "MEDIA1")
      (by decide) (by decide) ⟨"MEDIA1", by decide, rfl⟩,
    (retry_budget_shared.2.2 (fun _ => invalidTypeAttempt)).2.2.1 (by decide)⟩

/-- C5 (as stated, refuted): a download whose binary response is read, whose file is created
and whose write fails after two bytes returns an error and leaves the file, absent before,
holding the first two bytes of the body. -/
theorem download_write_failure_leaves_partial_file :
    (DownloadMediaFile (fun _ => binaryAttempt) diskFull none).result =
        .error "write: no space left on device" ∧
      (DownloadMediaFile (fun _ => binaryAttempt) diskFull none).state = some [255, 216] := by
  decide

/-- C5 (amended): on every run of `DownloadMediaFile` that does not return nil and in which
no local write fails, the file at `filePath` is left as it was; in particular, when every
attempt's response has `Content-Type: text/plain`, the call fails and the file is untouched;
and when the call returns nil the content of the file is exactly the body of the binary
response of the returning attempt. -/
theorem download_leaves_file_unless_written (env : Nat → Attempt errRtn) (disk : Disk)
    (file : Option Bytes) :
    (disk.writeErr = none → (DownloadMediaFile env disk file).result ≠ .ok () →
      (DownloadMediaFile env disk file).state = file) ∧
      ((∀ j, j < retryNum → textPlain (env j) = true) →
        (DownloadMediaFile env disk file).result = .error "download media file failed" ∧
        (DownloadMediaFile env disk file).state = file) ∧
      ((DownloadMediaFile env disk file).result = .ok () →
        ∃ i raw, i < retryNum ∧ (DownloadMediaFile env disk file).attempts = i + 1 ∧
          downloadSuccess (env i) raw = true ∧
          (DownloadMediaFile env disk file).state = some raw) := by
  unfold DownloadMediaFile
  rcases forRetry_cases (downloadAttempt env disk) (.error "download media file failed")
      (List.range retryNum) file
      (fun i _ t u h => downloadAttempt_next env disk i t u h) with
    ⟨h1, h2, _, _⟩ | ⟨n, i, hn, _, hb, hatt⟩
  · refine ⟨fun _ _ => h2, fun _ => ⟨h1, h2⟩, fun h => ?_⟩
    rw [h1] at h
    cases h
  · obtain ⟨rfl, hlt⟩ := getElem?_range_retryNum n i hn
    rcases downloadAttempt_done env disk i file _ _ hlt hb with
      ⟨hst, ho⟩ | ⟨raw, hraw, _, ⟨_, ho, hst⟩ | ⟨m, e, hw, ho, hst⟩⟩
    · refine ⟨fun _ _ => hst, fun htp => ?_, fun h => absurd h ho⟩
      have hfail : downloadFailure (env i) = true := by simp [downloadFailure, htp i hlt]
      rw [downloadAttempt_failure env disk i file hlt hfail] at hb
      cases hb
    · refine ⟨fun _ hne => absurd ho hne, fun htp => ?_, fun _ => ⟨i, raw, hlt, hatt, hraw, hst⟩⟩
      have hfail : downloadFailure (env i) = true := by simp [downloadFailure, htp i hlt]
      rw [downloadAttempt_failure env disk i file hlt hfail] at hb
      cases hb
    · refine ⟨fun hnone => ?_, fun htp => ?_, fun h => ?_⟩
      · rw [hnone] at hw
        cases hw
      · have hfail : downloadFailure (env i) = true := by simp [downloadFailure, htp i hlt]
        rw [downloadAttempt_failure env disk i file hlt hfail] at hb
        cases hb
      · rw [ho] at h
        cases h

/-- C5 (amended) at a download answered three times with the `text/plain` payload
`40007 invalid media_id`, and at a download that succeeds on a healthy disk. -/
theorem download_leaves_file_unless_written_witness :
    ((DownloadMediaFile (fun _ => invalidMediaAttempt) diskOk none).result =
        .error "download media file failed" ∧
      (DownloadMediaFile (fun _ => invalidMediaAttempt) diskOk none).state = none) ∧
      (DownloadMediaFile (fun _ => invalidMediaAttempt) diskOk (some [1, 2, 3])).state =
        some [1, 2, 3] ∧
      ∃ i raw, i < retryNum ∧
        (DownloadMediaFile invalidMediaThenBinary diskOk none).attempts = i + 1 ∧
        downloadSuccess (invalidMediaThenBinary i) raw = true ∧
        (DownloadMediaFile invalidMediaThenBinary diskOk none).state = some raw :=
  ⟨(download_leaves_file_unless_written (fun _ => invalidMediaAttempt) diskOk none).2.1
      (by decide),
    (download_leaves_file_unless_written (fun _ => invalidMediaAttempt) diskOk
      (some [1, 2, 3])).1 rfl (by decide),
    (download_leaves_file_unless_written invalidMediaThenBinary diskOk none).2.2 (by decide)⟩

/-! ## The claims about the message envelope -/

theorem replyMsg_msg (req : Request) (now : Int) (rw : ResponseWriter) (msg : Msg) :
    (replyMsg req now rw msg).msg =
      ((msg.setToUserName req.FromUserName).setFromUserName req.ToUserName).setCreateTime
        now := by
  unfold replyMsg
  dsimp only
  split
  · rfl
  · split <;> rfl

theorem replyMsg_written (req : Request) (now : Int) (rw : ResponseWriter) (msg : Msg)
    (doc : Xml) (hw : rw.writeErr = none)
    (hdoc : xmlMarshal (((msg.setToUserName req.FromUserName).setFromUserName
      req.ToUserName).setCreateTime now) = .ok doc) :
    (replyMsg req now rw msg).result = .ok () ∧
      (replyMsg req now rw msg).rw.written = rw.written ++ [doc] := by
  simp [replyMsg, hdoc, ResponseWriter.Write, hw]

theorem forRetry_state_invariant {α σ : Type} (body : Nat → σ → Step α × σ)
    (after : Outcome α) (P : σ → Prop) (hbody : ∀ i s, P s → P (body i s).2)
    (l : List Nat) (s : σ) (hs : P s) : P (forRetry body after l s).state := by
  induction l generalizing s with
  | nil => exact hs
  | cons i rest ih =>
    have hi := hbody i s hs
    simp only [forRetry]
    split
    · rename_i s1 heq
      rw [heq] at hi
      exact ih s1 hi
    · rename_i o s1 heq
      rw [heq] at hi
      exact hi

/-- Every request `post` issues carries the document it was given. -/
theorem post_sent_body (action : String) (data : Json) (env : Nat → Attempt errRtn) :
    ∀ r ∈ (post action data env).state, r.body = data := by
  unfold post
  refine forRetry_state_invariant (postAttempt action data env) _
    (fun sent => ∀ r ∈ sent, r.body = data) ?_ (List.range retryNum) [] ?_
  · intro i sent hsent
    have happ : ∀ u : String, ∀ r ∈ sent ++ [(⟨u, data⟩ : HttpReq)], r.body = data := by
      intro u r hr
      rcases List.mem_append.mp hr with h | h
      · exact hsent r h
      · simp only [List.mem_singleton] at h
        rw [h]
    unfold postAttempt
    repeat' split
    all_goals first | exact hsent | exact happ _
  · intro r hr
    cases hr

/-- When the first attempt of `post` succeeds, exactly one request is issued: the document,
posted to the action's URL with the access token appended. -/
theorem post_first_attempt (action : String) (data : Json) (env : Nat → Attempt errRtn)
    (token : String) (raw : Bytes) (htok : (env 0).token = .ok token)
    (hok : postSuccess (env 0) raw = true) :
    (post action data env).state =
      [⟨plainPreUrl ++ action ++ "?access_token=" ++ token, data⟩] := by
  unfold postSuccess Attempt.raw Attempt.response at hok
  unfold post
  rw [range_retryNum]
  simp only [forRetry, postAttempt]
  rcases hE : env 0 with ⟨tok, ⟨resp, err⟩, dec⟩
  rw [hE] at hok htok
  simp only at htok
  subst htok
  rcases resp with _ | ⟨ct, body⟩ <;> rcases err with _ | e2 <;>
    first
    | (simp at hok; done)
    | (rcases body with e3 | raw1 <;> rcases dec with e4 | rtn <;> simp_all)

theorem sendMsg_result (env : Nat → Attempt errRtn) (touser : String) (msg : Msg) (data : Json)
    (hdoc : jsonMarshal (msg.setToUserName touser) = .ok data) :
    (sendMsg env touser msg).sent = (post "message/custom/send" data env).state ∧
      (sendMsg env touser msg).msg = msg.setToUserName touser ∧
      (∀ raw, (post "message/custom/send" data env).result = .ok raw →
        (sendMsg env touser msg).result = .ok ()) ∧
      (∀ e, (sendMsg env touser msg).result = .error e →
        (post "message/custom/send" data env).result = .error e) := by
  unfold sendMsg
  simp only [hdoc]
  rcases hres : (post "message/custom/send" data env).result with raw | e | _ <;> simp

/-- C6: for each of the six reply variants, every inbound request and every clock value,
`replyMsg` produces a message whose `ToUserName` is the request's `FromUserName`, whose
`FromUserName` is the request's `ToUserName` and whose `CreateTime` is the clock value, while
`MsgType` and every payload field set by the `Reply*Msg` constructor stay as set. -/
theorem reply_swaps_sender_and_recipient (req : Request) (now : Int) (rw : ResponseWriter) :
    (∀ msg : Msg,
      (replyMsg req now rw msg).msg.ToUserName = req.FromUserName ∧
        (replyMsg req now rw msg).msg.FromUserName = req.ToUserName ∧
        (replyMsg req now rw msg).msg.CreateTime = now ∧
        (replyMsg req now rw msg).msg.MsgType = msg.MsgType ∧
        (replyMsg req now rw msg).msg.payload = msg.payload) ∧
      (∀ content, (ReplyTextMsg req now rw content).msg =
        .text { ToUserName := req.FromUserName, FromUserName := req.ToUserName,
                CreateTime := now, MsgType := "text", Content := content }) ∧
      (∀ mediaId, (ReplyImageMsg req now rw mediaId).msg =
        .image { ToUserName := req.FromUserName, FromUserName := req.ToUserName,
                 CreateTime := now, MsgType := "image", Image := ⟨mediaId⟩ }) ∧
      (∀ mediaId, (ReplyVoiceMsg req now rw mediaId).msg =
        .voice { ToUserName := req.FromUserName, FromUserName := req.ToUserName,
                 CreateTime := now, MsgType := "voice", Voice := ⟨mediaId⟩ }) ∧
      (∀ video, (ReplyVideoMsg req now rw video).msg =
        .video { ToUserName := req.FromUserName, FromUserName := req.ToUserName,
                 CreateTime := now, MsgType := "video", Video := video }) ∧
      (∀ music, (ReplyMusicMsg req now rw music).msg =
        .music { ToUserName := req.FromUserName, FromUserName := req.ToUserName,
                 CreateTime := now, MsgType := "music", Music := music }) ∧
      (∀ articles : List Article, (ReplyNewsMsg req now rw (some articles)).msg =
        .news { ToUserName := req.FromUserName, FromUserName := req.ToUserName,
                CreateTime := now, MsgType := "news", ArticleCount := articles.length,
                Articles := ⟨some articles⟩ }) := by
  refine ⟨?_, ?_, ?_, ?_, ?_, ?_, ?_⟩
  · intro msg
    rw [replyMsg_msg]
    cases msg <;> exact ⟨rfl, rfl, rfl, rfl, rfl⟩
  · intro content
    simp only [ReplyTextMsg, replyMsg_msg]
    rfl
  · intro mediaId
    simp only [ReplyImageMsg, replyMsg_msg]
    rfl
  · intro mediaId
    simp only [ReplyVoiceMsg, replyMsg_msg]
    rfl
  · intro video
    simp only [ReplyVideoMsg, replyMsg_msg]
    rfl
  · intro music
    simp only [ReplyMusicMsg, replyMsg_msg]
    rfl
  · intro articles
    simp only [ReplyNewsMsg, replyMsg_msg]
    rfl

/-- C7: for every list of articles, the empty list included, the news message built by
`ReplyNewsMsg` has `ArticleCount` equal to the number of articles and carries the articles in
the same order, in the struct and in the XML document written; a list of 3 articles yields
`ArticleCount = 3`. -/
theorem reply_news_counts_articles (req : Request) (now : Int) (rw : ResponseWriter)
    (articles : List Article) :
    (∃ m, (ReplyNewsMsg req now rw (some articles)).msg = .news m ∧
        m.ArticleCount = articles.length ∧ m.Articles.Item = some articles) ∧
      xmlMarshal (ReplyNewsMsg req now rw (some articles)).msg =
        .ok (.elem "xml" [xmlStr "ToUserName" req.FromUserName,
          xmlStr "FromUserName" req.ToUserName, .elem "CreateTime" [.int now],
          xmlStr "MsgType" "news", .elem "ArticleCount" [.int articles.length],
          .elem "Articles" (articles.map (Article.toXml "item"))]) ∧
      (ReplyNewsMsg req now rw (some articles)).result ≠ .panic ∧
      ∃ m3, (ReplyNewsMsg req now rw (some threeArticles)).msg = .news m3 ∧
        m3.ArticleCount = 3 := by
  have hmsg : ∀ l : List Article, (ReplyNewsMsg req now rw (some l)).msg =
      .news { ToUserName := req.FromUserName, FromUserName := req.ToUserName,
              CreateTime := now, MsgType := "news", ArticleCount := l.length,
              Articles := ⟨some l⟩ } := by
    intro l
    simp only [ReplyNewsMsg, replyMsg_msg]
    rfl
  refine ⟨⟨_, hmsg articles, rfl, rfl⟩, ?_, ?_, ⟨_, hmsg threeArticles, rfl⟩⟩
  · rw [hmsg]
    rfl
  · simp only [ReplyNewsMsg, replyMsg]
    split
    · simp
    · split <;> simp

/-- C8: for every content string `c`, the message built by `ReplyTextMsg` stores `c` in the
top-level `Content` and leaves `Text.Content` empty, and its XML document has `Content` as
its only content element; the message built by `SendTextMsg` stores `c` in `Text.Content` and
leaves `Content` empty, and its JSON body has exactly the keys `touser`, `msgtype` and `text`,
with `text.content = c`; every request posted carries that body. -/
theorem text_reply_send_duality (req : Request) (now : Int) (rw : ResponseWriter)
    (env : Nat → Attempt errRtn) (touser c : String) :
    (ReplyTextMsg req now rw c).msg =
        .text { ToUserName := req.FromUserName, FromUserName := req.ToUserName,
                CreateTime := now, MsgType := "text", Content := c, Text := ⟨""⟩ } ∧
      xmlMarshal (ReplyTextMsg req now rw c).msg =
        .ok (.elem "xml" [xmlStr "ToUserName" req.FromUserName,
          xmlStr "FromUserName" req.ToUserName, .elem "CreateTime" [.int now],
          xmlStr "MsgType" "text", xmlStr "Content" c]) ∧
      (SendTextMsg env touser c).msg =
        .text { ToUserName := touser, FromUserName := "", CreateTime := 0, MsgType := "text",
                Content := "", Text := ⟨c⟩ } ∧
      jsonMarshal (SendTextMsg env touser c).msg =
        .ok (.obj [("touser", .str touser), ("msgtype", .str "text"),
          ("text", .obj [("content", .str c)])]) ∧
      (∀ doc, xmlMarshal (ReplyTextMsg req now rw c).msg = .ok doc →
        doc.childNames = ["ToUserName", "FromUserName", "CreateTime", "MsgType", "Content"]) ∧
      (∀ doc, jsonMarshal (SendTextMsg env touser c).msg = .ok doc →
        doc.keys = ["touser", "msgtype", "text"] ∧
        (doc.get "text").bind (Json.get "content") = some (.str c)) ∧
      (∀ r ∈ (SendTextMsg env touser c).sent,
        r.body = .obj [("touser", .str touser), ("msgtype", .str "text"),
          ("text", .obj [("content", .str c)])]) := by
  have hreply : (ReplyTextMsg req now rw c).msg =
      .text { ToUserName := req.FromUserName, FromUserName := req.ToUserName,
              CreateTime := now, MsgType := "text", Content := c, Text := ⟨""⟩ } := by
    simp only [ReplyTextMsg, replyMsg_msg]
    rfl
  have hsend := sendMsg_result env touser
    (.text { MsgType := "text", Text := ⟨c⟩ })
    (.obj [("touser", .str touser), ("msgtype", .str "text"),
      ("text", .obj [("content", .str c)])]) rfl
  have hsmsg : (SendTextMsg env touser c).msg =
      .text { ToUserName := touser, FromUserName := "", CreateTime := 0, MsgType := "text",
              Content := "", Text := ⟨c⟩ } := hsend.2.1
  refine ⟨hreply, ?_, hsmsg, ?_, ?_, ?_, ?_⟩
  · rw [hreply]
    rfl
  · rw [hsmsg]
    rfl
  · intro doc hdoc
    rw [hreply] at hdoc
    simp only [xmlMarshal, Except.ok.injEq] at hdoc
    rw [← hdoc]
    rfl
  · intro doc hdoc
    rw [hsmsg] at hdoc
    simp only [jsonMarshal, Except.ok.injEq] at hdoc
    rw [← hdoc]
    exact ⟨rfl, by simp [Json.get]⟩
  · intro r hr
    have hs : (SendTextMsg env touser c).sent = _ := hsend.1
    rw [hs] at hr
    exact post_sent_body _ _ env r hr

/-- C8 at the content `hello`, replied to the request of `alice` and sent to `alice` through
an endpoint that answers with errcode 0. -/
theorem text_reply_send_duality_witness :
    (Xml.elem "xml" [xmlStr "ToUserName" "alice", xmlStr "FromUserName" "shop",
        .elem "CreateTime" [.int 1700000000], xmlStr "MsgType" "text",
        xmlStr "Content" "hello"]).childNames =
        ["ToUserName", "FromUserName", "CreateTime", "MsgType", "Content"] ∧
      ((Json.obj [("touser", .str "alice"), ("msgtype", .str "text"),
          ("text", .obj [("content", .str "hello")])]).keys = ["touser", "msgtype", "text"] ∧
        ((Json.obj [("touser", .str "alice"), ("msgtype", .str "text"),
          ("text", .obj [("content", .str "hello")])]).get "text").bind (Json.get "content") =
          some (.str "hello")) ∧
      (HttpReq.mk "https://api.weixin.qq.com/cgi-bin/message/custom/send?access_token=TOKEN"
          (.obj [("touser", .str "alice"), ("msgtype", .str "text"),
            ("text", .obj [("content", .str "hello")])])).body =
        .obj [("touser", .str "alice"), ("msgtype", .str "text"),
          ("text", .obj [("content", .str "hello")])] :=
  ⟨(text_reply_send_duality sampleRequest 1700000000 freshWriter (fun _ => postOkAttempt)
      "alice" "hello").2.2.2.2.1 _ rfl,
    (text_reply_send_duality sampleRequest 1700000000 freshWriter (fun _ => postOkAttempt)
      "alice" "hello").2.2.2.2.2.1 _ rfl,
    (text_reply_send_duality sampleRequest 1700000000 freshWriter (fun _ => postOkAttempt)
      "alice" "hello").2.2.2.2.2.2 _
      (show HttpReq.mk
          "https://api.weixin.qq.com/cgi-bin/message/custom/send?access_token=TOKEN"
          (.obj [("touser", .str "alice"), ("msgtype", .str "text"),
            ("text", .obj [("content", .str "hello")])]) ∈
          (SendTextMsg (fun _ => postOkAttempt) "alice" "hello").sent from
        List.mem_singleton_self _)⟩

/-- C9 (as stated, refuted): for a video whose `MediaId` is empty, and for a nil video,
`ReplyVideoMsg` returns nil and has written a document to the response writer, and
`SendVideoMsg` returns nil and has posted a request. -/
theorem video_without_media_id_is_sent :
    videoWithoutMediaId.MediaId = "" ∧
      (ReplyVideoMsg sampleRequest 1700000000 freshWriter (some videoWithoutMediaId)).result =
        .ok () ∧
      (ReplyVideoMsg sampleRequest 1700000000 freshWriter
        (some videoWithoutMediaId)).rw.written.length = 1 ∧
      (ReplyVideoMsg sampleRequest 1700000000 freshWriter none).result = .ok () ∧
      (ReplyVideoMsg sampleRequest 1700000000 freshWriter none).rw.written.length = 1 ∧
      (SendVideoMsg (fun _ => postOkAttempt) "alice" (some videoWithoutMediaId)).result =
        .ok () ∧
      (SendVideoMsg (fun _ => postOkAttempt) "alice" (some videoWithoutMediaId)).sent.length =
        1 ∧
      (SendVideoMsg (fun _ => postOkAttempt) "alice" none).result = .ok () ∧
      (SendVideoMsg (fun _ => postOkAttempt) "alice" none).sent.length = 1 := by
  decide

/-- C9 (amended): `ReplyVideoMsg` and `SendVideoMsg` do not check required fields. For every
video, also one whose `MediaId` is empty and a nil video, serialization succeeds;
`ReplyVideoMsg` writes the XML document to the response writer and returns nil when the write
succeeds; `SendVideoMsg` hands the JSON document to `post` for `message/custom/send`, every
request posted carries it, the call returns nil when `post` succeeds and an error only when
`post` returns that error. -/
theorem video_sent_without_validation (req : Request) (now : Int) (rw : ResponseWriter)
    (env : Nat → Attempt errRtn) (touser : String) (video : Option Video)
    (hw : rw.writeErr = none) :
    ((ReplyVideoMsg req now rw video).result = .ok () ∧
        (ReplyVideoMsg req now rw video).rw.written = rw.written ++
          [.elem "xml" ([xmlStr "ToUserName" req.FromUserName,
            xmlStr "FromUserName" req.ToUserName, .elem "CreateTime" [.int now],
            xmlStr "MsgType" "video"] ++
            match video with
            | none => []
            | some v => [v.toXml "Video"])]) ∧
      (SendVideoMsg env touser video).sent =
        (post "message/custom/send"
          (.obj [("touser", .str touser), ("msgtype", .str "video"),
            ("video", match video with
              | none => .null
              | some v => v.toJson)]) env).state ∧
      (∀ r ∈ (SendVideoMsg env touser video).sent,
        r.body = .obj [("touser", .str touser), ("msgtype", .str "video"),
          ("video", match video with
            | none => .null
            | some v => v.toJson)]) ∧
      (∀ raw, (post "message/custom/send"
          (.obj [("touser", .str touser), ("msgtype", .str "video"),
            ("video", match video with
              | none => .null
              | some v => v.toJson)]) env).result = .ok raw →
        (SendVideoMsg env touser video).result = .ok ()) ∧
      (∀ e, (SendVideoMsg env touser video).result = .error e →
        (post "message/custom/send"
          (.obj [("touser", .str touser), ("msgtype", .str "video"),
            ("video", match video with
              | none => .null
              | some v => v.toJson)]) env).result = .error e) ∧
      (∀ token raw, (env 0).token = .ok token → postSuccess (env 0) raw = true →
        (SendVideoMsg env touser video).result = .ok () ∧
        (SendVideoMsg env touser video).sent =
          [⟨plainPreUrl ++ "message/custom/send" ++ "?access_token=" ++ token,
            .obj [("touser", .str touser), ("msgtype", .str "video"),
              ("video", match video with
                | none => .null
                | some v => v.toJson)]⟩]) := by
  have hsend := sendMsg_result env touser (.video { MsgType := "video", Video := video })
    (.obj [("touser", .str touser), ("msgtype", .str "video"),
      ("video", match video with
        | none => .null
        | some v => v.toJson)]) rfl
  have hs : (SendVideoMsg env touser video).sent = _ := hsend.1
  refine ⟨?_, hsend.1, ?_, hsend.2.2.1, hsend.2.2.2, ?_⟩
  · exact replyMsg_written req now rw (.video { MsgType := "video", Video := video }) _ hw rfl
  · intro r hr
    rw [hs] at hr
    exact post_sent_body _ _ env r hr
  · intro token raw htok hok
    refine ⟨hsend.2.2.1 raw ?_, ?_⟩
    · exact (post_stops_at_first_success _ _ env 0 raw (by decide)
        (fun j hj => absurd hj (Nat.not_lt_zero j)) hok).1
    · rw [hs]
      exact post_first_attempt _ _ env token raw htok hok

/-- C9 (amended) at a video without media id, a fresh response writer and a send endpoint
that answers with errcode 0: the document is written, and the call to `post` is the one
`SendVideoMsg` makes. -/
theorem video_sent_without_validation_witness :
    freshWriter.writeErr = none ∧
      (ReplyVideoMsg sampleRequest 1700000000 freshWriter (some videoWithoutMediaId)).result =
        .ok () ∧
      (ReplyVideoMsg sampleRequest 1700000000 freshWriter
          (some videoWithoutMediaId)).rw.written =
        [.elem "xml" [xmlStr "ToUserName" "alice", xmlStr "FromUserName" "shop",
          .elem "CreateTime" [.int 1700000000], xmlStr "MsgType" "video",
          .elem "Video" [xmlStr "MediaId" "", xmlStr "Title" "holiday",
            xmlStr "Description" ""]]] ∧
      (SendVideoMsg (fun _ => postOkAttempt) "alice" (some videoWithoutMediaId)).result =
        .ok () ∧
      (SendVideoMsg (fun _ => postOkAttempt) "alice" (some videoWithoutMediaId)).sent =
        [⟨"https://api.weixin.qq.com/cgi-bin/message/custom/send?access_token=TOKEN",
          .obj [("touser", .str "alice"), ("msgtype", .str "video"),
            ("video", .obj [("media_id", .str ""), ("title", .str "holiday"),
              ("description", .str "")])]⟩] :=
  ⟨rfl,
    (video_sent_without_validation sampleRequest 1700000000 freshWriter
      (fun _ => postOkAttempt) "alice" (some videoWithoutMediaId) rfl).1.1,
    (video_sent_without_validation sampleRequest 1700000000 freshWriter
      (fun _ => postOkAttempt) "alice" (some videoWithoutMediaId) rfl).1.2,
    ((video_sent_without_validation sampleRequest 1700000000 freshWriter
      (fun _ => postOkAttempt) "alice" (some videoWithoutMediaId) rfl).2.2.2.2.2
      "TOKEN" okBody rfl (by decide)).1,
    ((video_sent_without_validation sampleRequest 1700000000 freshWriter
      (fun _ => postOkAttempt) "alice" (some videoWithoutMediaId) rfl).2.2.2.2.2
      "TOKEN" okBody rfl (by decide)).2⟩

end Weixin
